import Mathlib

/-!
Verification of the plant-identification web app (`app.py`).

The app reads an image (file upload or a webcam frame), base64-encodes it,
issues one HTTP POST to a fixed classification endpoint, and displays the
label found in the JSON response.  We embed the Python code shallowly:

* `PyVal` models the Python/JSON values flowing through the program, with
  Python semantics for truthiness, `dict.get` (an `AttributeError` on a
  non-dict receiver) and subscripting;
* `processResponse` embeds the response-handling half of `identify_plant`
  (`app.py` lines 48-58), returning `Except` to capture uncaught exceptions;
* `b64encode`/`b64decode` model the base64 codec used on the image bytes;
* `buildRequest`/`identify_plant` embed the request-construction half
  (lines 26-45), with the HTTP exchange as an oracle function;
* `VideoProcessor.recv` and the sidebar branches (`uploadBranch`,
  `captureBranch`) embed the capture callback and the UI control flow.
-/

/-- Python/JSON values as they occur in the program: `None`, booleans,
integers, strings, lists and string-keyed dicts (JSON objects). -/
inductive PyVal where
  | none : PyVal
  | bool : Bool → PyVal
  | int : Int → PyVal
  | str : String → PyVal
  | list : List PyVal → PyVal
  | dict : List (String × PyVal) → PyVal

/-- First-match association lookup, as in a Python dict built from JSON. -/
def lookupStr (k : String) : List (String × PyVal) → Option PyVal
  | [] => Option.none
  | (k2, v) :: rest => if k2 = k then Option.some v else lookupStr k rest

/-- Python truthiness of a value (`if v:`). -/
def pyTruthy : PyVal → Bool
  | PyVal.none => false
  | PyVal.bool b => b
  | PyVal.int n => n ≠ 0
  | PyVal.str s => s ≠ ""
  | PyVal.list xs => !xs.isEmpty
  | PyVal.dict kvs => !kvs.isEmpty

/-- Python `v.get(k, d)`: dict lookup with default; on a non-dict receiver
the attribute access `.get` raises `AttributeError`. -/
def pyGetD : PyVal → String → PyVal → Except String PyVal
  | PyVal.dict kvs, k, d =>
      match lookupStr k kvs with
      | Option.some v => Except.ok v
      | Option.none => Except.ok d
  | _, _, _ => Except.error "AttributeError"

/-- Dict lookup that simply fails on a non-dict or a missing key; used to
state hypotheses about response shapes. -/
def pyDictGet : PyVal → String → Option PyVal
  | PyVal.dict kvs, k => lookupStr k kvs
  | _, _ => Option.none

/-- Python `v[i]` for a natural index: list element (or `IndexError`),
single-character string of a string (or `IndexError`); any other receiver
raises (`KeyError`/`TypeError`). -/
def pyIndex : PyVal → Nat → Except String PyVal
  | PyVal.list xs, i =>
      match xs.get? i with
      | Option.some v => Except.ok v
      | Option.none => Except.error "IndexError"
  | PyVal.str s, i =>
      match s.toList.get? i with
      | Option.some c => Except.ok (PyVal.str (String.mk [c]))
      | Option.none => Except.error "IndexError"
  | _, _ => Except.error "TypeError"

/-- A message surfaced to the user, tagged with the Streamlit channel that
produced it: `st.error(...)` or a `write` (informational) call. -/
inductive Message where
  | error : String → Message
  | write : String → Message
deriving DecidableEq, Repr

/-- Whether a message is informational (a `write`) rather than an error. -/
def isInfoMsg : Message → Bool
  | Message.error _ => false
  | Message.write _ => true

/-- The HTTP response as seen by `identify_plant`: status code, the parsed
JSON body (used on the 200 path), and the raw body text (used otherwise). -/
structure Response where
  status_code : Nat
  json : PyVal
  text : String

/-- What the response-processing code produces: the returned value
(`plant_name` or `None`) and the messages shown while producing it. -/
structure ProcessResult where
  ret : PyVal
  messages : List Message

/-- Embedding of `app.py` lines 48-58: the part of `identify_plant` that
processes the HTTP response.  `Except.error` marks an uncaught Python
exception. -/
def processResponse (r : Response) : Except String ProcessResult :=
  if r.status_code = 200 then do
    let prediction ← pyGetD r.json "predictions" (PyVal.list [])
    if pyTruthy prediction then do
      let p0 ← pyIndex prediction 0
      let pid ← pyGetD p0 "plant_identification" (PyVal.dict [])
      let plant_name ← pyGetD pid "plant_name" PyVal.none
      Except.ok ⟨plant_name, []⟩
    else
      Except.ok ⟨PyVal.none, [Message.error "No predictions found in the response."]⟩
  else
    Except.ok ⟨PyVal.none,
      [Message.error ("Error: " ++ toString r.status_code ++ " - " ++ r.text)]⟩

/-! ### Base64 (`base64.b64encode`, `app.py` line 26) -/

/-- The standard base64 alphabet: sextet value to character. -/
def sextetChar (n : Nat) : Char :=
  if n < 26 then Char.ofNat (65 + n)
  else if n < 52 then Char.ofNat (97 + (n - 26))
  else if n < 62 then Char.ofNat (48 + (n - 52))
  else if n = 62 then '+'
  else '/'

/-- Inverse of the base64 alphabet: character to sextet value. -/
def charSextet (c : Char) : Option (Fin 64) :=
  if h : 65 ≤ c.toNat ∧ c.toNat ≤ 90 then Option.some ⟨c.toNat - 65, by omega⟩
  else if h : 97 ≤ c.toNat ∧ c.toNat ≤ 122 then Option.some ⟨c.toNat - 97 + 26, by omega⟩
  else if h : 48 ≤ c.toNat ∧ c.toNat ≤ 57 then Option.some ⟨c.toNat - 48 + 52, by omega⟩
  else if c = '+' then Option.some ⟨62, by omega⟩
  else if c = '/' then Option.some ⟨63, by omega⟩
  else Option.none

/-- Standard base64 encoding of a byte sequence, three bytes to four
characters with `=` padding, as performed by Python `base64.b64encode`. -/
def b64encode : List (Fin 256) → List Char
  | [] => []
  | [a] =>
      [sextetChar (a.val / 4), sextetChar (a.val % 4 * 16), '=', '=']
  | [a, b] =>
      [sextetChar (a.val / 4), sextetChar (a.val % 4 * 16 + b.val / 16),
       sextetChar (b.val % 16 * 4), '=']
  | a :: b :: c :: rest =>
      sextetChar (a.val / 4) :: sextetChar (a.val % 4 * 16 + b.val / 16) ::
      sextetChar (b.val % 16 * 4 + c.val / 64) :: sextetChar (c.val % 64) ::
      b64encode rest

/-- Base64 decoding: four characters to three bytes, with `=` padding
accepted in the final quantum only. -/
def b64decode : List Char → Option (List (Fin 256))
  | [] => Option.some []
  | c1 :: c2 :: c3 :: c4 :: rest =>
      if c3 = '=' ∧ c4 = '=' ∧ rest = [] then do
        let s1 ← charSextet c1
        let s2 ← charSextet c2
        Option.some [⟨(s1.val * 4 + s2.val / 16) % 256, Nat.mod_lt _ (by omega)⟩]
      else if c4 = '=' ∧ rest = [] then do
        let s1 ← charSextet c1
        let s2 ← charSextet c2
        let s3 ← charSextet c3
        Option.some [⟨(s1.val * 4 + s2.val / 16) % 256, Nat.mod_lt _ (by omega)⟩,
                     ⟨(s2.val % 16 * 16 + s3.val / 4) % 256, Nat.mod_lt _ (by omega)⟩]
      else do
        let s1 ← charSextet c1
        let s2 ← charSextet c2
        let s3 ← charSextet c3
        let s4 ← charSextet c4
        let tail ← b64decode rest
        Option.some (⟨(s1.val * 4 + s2.val / 16) % 256, Nat.mod_lt _ (by omega)⟩ ::
                     ⟨(s2.val % 16 * 16 + s3.val / 4) % 256, Nat.mod_lt _ (by omega)⟩ ::
                     ⟨(s3.val % 4 * 64 + s4.val) % 256, Nat.mod_lt _ (by omega)⟩ :: tail)
  | _ => Option.none

/-- The base64 text sent in the request body (`.decode('utf-8')` of the
encoder output). -/
def b64encodeStr (bs : List (Fin 256)) : String :=
  String.mk (b64encode bs)

/-- String-level decoding, for the round-trip law. -/
def b64decodeStr (s : String) : Option (List (Fin 256)) :=
  b64decode s.toList
/-! ### Request construction and `identify_plant` (`app.py` lines 15-58) -/

/-- The outbound HTTP request issued by `requests.post`. -/
structure HttpRequest where
  method : String
  url : String
  headers : List (String × String)
  body : PyVal

/-- The hardcoded endpoint URL (`app.py` line 29). -/
def gemini_url : String :=
  "https://gemini.googleapis.com/v1/models/gemini-1.5-flash-latest:predict"

/-- The request `identify_plant` builds (`app.py` lines 26-45): POST with the
bearer header and the instances/image/content JSON body. -/
def buildRequest (api_key : String) (image_data : List (Fin 256)) : HttpRequest :=
  { method := "POST"
    url := gemini_url
    headers := [("Authorization", "Bearer " ++ api_key)]
    body := PyVal.dict [("instances", PyVal.list [PyVal.dict
      [("image", PyVal.dict [("content", PyVal.str (b64encodeStr image_data))]),
       ("features", PyVal.dict [("plant_identification", PyVal.dict [])])]])] }

/-- Embedding of `identify_plant` (`app.py` lines 15-58).  The network is an
oracle `http` mapping the request to a response; the result is the list of
requests issued together with the processed outcome. -/
def identify_plant (api_key : String) (image_data : List (Fin 256))
    (http : HttpRequest → Response) : List HttpRequest × Except String ProcessResult :=
  let req := buildRequest api_key image_data
  ([req], processResponse (http req))

/-- The request shape described by the spec (section 6, External Interfaces),
written from the spec words: POST to a fixed URL, header
`Authorization: Bearer <token>`, and JSON body
`instances / image / content: <base64 string>, features / plant_identification`. -/
def specRequest (token : String) (image : List (Fin 256)) : HttpRequest :=
  { method := "POST"
    url := gemini_url
    headers := [("Authorization", "Bearer " ++ token)]
    body := PyVal.dict [("instances", PyVal.list [PyVal.dict
      [("image", PyVal.dict [("content", PyVal.str (b64encodeStr image))]),
       ("features", PyVal.dict [("plant_identification", PyVal.dict [])])]])] }

/-! ### Result display and the sidebar branches (`app.py` lines 80-122) -/

mutual
/-- Python `repr` of a JSON-like value, used by `str` on containers. -/
def pyRepr : PyVal → String
  | PyVal.none => "None"
  | PyVal.bool true => "True"
  | PyVal.bool false => "False"
  | PyVal.int n => toString n
  | PyVal.str s => "\x27" ++ s ++ "\x27"
  | PyVal.list xs => "[" ++ pyReprList xs ++ "]"
  | PyVal.dict kvs => "\x7b" ++ pyReprDict kvs ++ "\x7d"

/-- `repr` of list elements, comma separated. -/
def pyReprList : List PyVal → String
  | [] => ""
  | [x] => pyRepr x
  | x :: xs => pyRepr x ++ ", " ++ pyReprList xs

/-- `repr` of dict items, comma separated. -/
def pyReprDict : List (String × PyVal) → String
  | [] => ""
  | [(k, v)] => "\x27" ++ k ++ "\x27: " ++ pyRepr v
  | (k, v) :: kvs => "\x27" ++ k ++ "\x27: " ++ pyRepr v ++ ", " ++ pyReprDict kvs
end

/-- Python `str()` as an f-string applies it: identity on strings, `repr`
otherwise. -/
def pyStr : PyVal → String
  | PyVal.str s => s
  | v => pyRepr v

/-- The text written to the results placeholder (`app.py` lines 97 and 122):
the label when truthy, otherwise the no-identification message. -/
def displayResult (plant_name : PyVal) : String :=
  if pyTruthy plant_name then "The plant in the image is: " ++ pyStr plant_name
  else "No plant was identified."

/-- State of the `VideoProcessor` instance: the single-slot capture holder
(`self.captured_image`, `None` in `__init__`). -/
structure VideoProcessorState (N : Type) where
  captured_image : Option N

/-- The holder as `__init__` leaves it (`app.py` lines 72-73). -/
def VideoProcessor.initial (N : Type) : VideoProcessorState N :=
  ⟨Option.none⟩

/-- Embedding of `VideoProcessor.recv` (`app.py` lines 75-78): store the
frame converted by `to_ndarray` in the holder, return the frame unchanged.
The bgr24 conversion is library code, modelled as an arbitrary function. -/
def VideoProcessor.recv {F N : Type} (to_ndarray : F → N)
    (_s : VideoProcessorState N) (frame : F) : VideoProcessorState N × F :=
  ({ captured_image := Option.some (to_ndarray frame) }, frame)

/-- One rerun of a sidebar branch of the script: requests issued, whether the
Identify button was rendered, the text written to the results placeholder,
messages shown, and an uncaught exception if any. -/
structure AppOutcome where
  requests : List HttpRequest
  identifyShown : Bool
  resultText : Option String
  messages : List Message
  crashed : Option String

/-- Embedding of the upload branch (`app.py` lines 87-97): with no file
selected nothing happens; with a file, the Identify button appears and a
click runs `identify_plant` and writes the result text. -/
def uploadBranch (api_key : String) (uploaded_file : Option (List (Fin 256)))
    (identifyClicked : Bool) (http : HttpRequest → Response) : AppOutcome :=
  match uploaded_file with
  | Option.none => ⟨[], false, Option.none, [], Option.none⟩
  | Option.some image_data =>
    if identifyClicked then
      match identify_plant api_key image_data http with
      | (reqs, Except.ok pr) =>
          ⟨reqs, true, Option.some (displayResult pr.ret), pr.messages, Option.none⟩
      | (reqs, Except.error e) =>
          ⟨reqs, true, Option.none, [], Option.some e⟩
    else
      ⟨[], true, Option.none, [], Option.none⟩

/-- Embedding of the capture branch (`app.py` lines 99-122): with no video
processor or no captured frame nothing happens; otherwise the held frame is
JPEG-encoded (`cv2.imencode`, library code modelled as a function) and the
Identify button appears. -/
def captureBranch {N : Type} (api_key : String)
    (video_processor : Option (VideoProcessorState N))
    (imencode_jpg : N → List (Fin 256))
    (identifyClicked : Bool) (http : HttpRequest → Response) : AppOutcome :=
  match video_processor with
  | Option.none => ⟨[], false, Option.none, [], Option.none⟩
  | Option.some vp =>
    match vp.captured_image with
    | Option.none => ⟨[], false, Option.none, [], Option.none⟩
    | Option.some captured_image =>
      let image_data := imencode_jpg captured_image
      if identifyClicked then
        match identify_plant api_key image_data http with
        | (reqs, Except.ok pr) =>
            ⟨reqs, true, Option.some (displayResult pr.ret), pr.messages, Option.none⟩
        | (reqs, Except.error e) =>
            ⟨reqs, true, Option.none, [], Option.some e⟩
      else
        ⟨[], true, Option.none, [], Option.none⟩
/-! ### Concrete responses used as test inputs -/

/-- A prediction entry labelled Tulip. -/
def tulipEntry : PyVal :=
  PyVal.dict [("plant_identification", PyVal.dict [("plant_name", PyVal.str "Tulip")])]

/-- A prediction entry labelled Rose. -/
def roseEntry : PyVal :=
  PyVal.dict [("plant_identification", PyVal.dict [("plant_name", PyVal.str "Rose")])]

/-- A 200 response whose predictions list has a Tulip entry first and a Rose
entry second. -/
def roseSecondResponse : Response :=
  ⟨200, PyVal.dict [("predictions", PyVal.list [tulipEntry, roseEntry])], ""⟩

/-- A 200 response whose first prediction has a string, not a dict, under
`plant_identification`. -/
def badShapeResponse : Response :=
  ⟨200, PyVal.dict [("predictions", PyVal.list [PyVal.dict [("plant_identification", PyVal.str "x")]])], ""⟩

/-- A 200 response with an empty predictions list. -/
def emptyPredsResponse : Response :=
  ⟨200, PyVal.dict [("predictions", PyVal.list [])], ""⟩

/-- A 200 response whose single prediction carries the empty string as its
`plant_name`. -/
def emptyLabelResponse : Response :=
  ⟨200, PyVal.dict [("predictions", PyVal.list
    [PyVal.dict [("plant_identification", PyVal.dict [("plant_name", PyVal.str "")])]])], ""⟩


/-! ### Helper lemmas -/

/-- Every base64 alphabet character decodes back to the sextet it encodes. -/
theorem charSextet_sextetChar_fin : ∀ i : Fin 64, charSextet (sextetChar i.val) = Option.some i := by
  decide

/-- `charSextet` inverts `sextetChar` on sextet values. -/
theorem charSextet_sextetChar (n : Nat) (h : n < 64) :
    charSextet (sextetChar n) = Option.some ⟨n, h⟩ :=
  charSextet_sextetChar_fin ⟨n, h⟩

/-- No alphabet character is the padding character. -/
theorem sextetChar_ne_pad_fin : ∀ i : Fin 64, sextetChar i.val ≠ '=' := by
  decide

/-- `sextetChar` never produces the padding character on sextet values. -/
theorem sextetChar_ne_pad (n : Nat) (h : n < 64) : sextetChar n ≠ '=' :=
  sextetChar_ne_pad_fin ⟨n, h⟩

/-- Base64 round trip at the byte-list level. -/
theorem b64decode_b64encode : ∀ bs : List (Fin 256), b64decode (b64encode bs) = Option.some bs
  | [] => rfl
  | [a] => by
      have ha := a.isLt
      have h1 := charSextet_sextetChar (a.val / 4) (by omega)
      have h2 := charSextet_sextetChar (a.val % 4 * 16) (by omega)
      simp [b64encode, b64decode, h1, h2, Option.bind, Fin.ext_iff]
      omega
  | [a, b] => by
      have ha := a.isLt
      have hb := b.isLt
      have h1 := charSextet_sextetChar (a.val / 4) (by omega)
      have h2 := charSextet_sextetChar (a.val % 4 * 16 + b.val / 16) (by omega)
      have h3 := charSextet_sextetChar (b.val % 16 * 4) (by omega)
      have hne := sextetChar_ne_pad (b.val % 16 * 4) (by omega)
      simp [b64encode, b64decode, h1, h2, h3, hne, Option.bind, Fin.ext_iff]
      omega
  | a :: b :: c :: rest => by
      have ha := a.isLt
      have hb := b.isLt
      have hc := c.isLt
      have h1 := charSextet_sextetChar (a.val / 4) (by omega)
      have h2 := charSextet_sextetChar (a.val % 4 * 16 + b.val / 16) (by omega)
      have h3 := charSextet_sextetChar (b.val % 16 * 4 + c.val / 64) (by omega)
      have h4 := charSextet_sextetChar (c.val % 64) (by omega)
      have hne3 := sextetChar_ne_pad (b.val % 16 * 4 + c.val / 64) (by omega)
      have hne4 := sextetChar_ne_pad (c.val % 64) (by omega)
      have ih := b64decode_b64encode rest
      simp [b64encode, b64decode, h1, h2, h3, h4, hne3, hne4, ih, Option.bind, Fin.ext_iff]
      omega

/-- A successful strict dict lookup gives the same successful `.get`,
whatever the default. -/
theorem pyGetD_of_pyDictGet {v : PyVal} {k : String} {w : PyVal}
    (h : pyDictGet v k = Option.some w) (d : PyVal) : pyGetD v k d = Except.ok w := by
  cases v
  case dict kvs =>
    simp only [pyDictGet] at h
    simp [pyGetD, h]
  all_goals simp [pyDictGet] at h

/-- C1 (amended): on a 200 response, `identify_plant` returns the
`plant_identification.plant_name` field of the FIRST prediction when the
first prediction admits the `.get` chain; in particular a first prediction
labelled Rose yields Rose. -/
theorem c1_returns_first_prediction_label (api_key : String) (bs : List (Fin 256))
    (r : Response) (p0 : PyVal) (ps : List PyVal) (pid plant_name : PyVal)
    (h200 : r.status_code = 200)
    (hpreds : pyDictGet r.json "predictions" = Option.some (PyVal.list (p0 :: ps)))
    (hpid : pyGetD p0 "plant_identification" (PyVal.dict []) = Except.ok pid)
    (hname : pyGetD pid "plant_name" PyVal.none = Except.ok plant_name) :
    (identify_plant api_key bs (fun _ => r)).2 = Except.ok ⟨plant_name, []⟩ := by
  have hg := pyGetD_of_pyDictGet hpreds (PyVal.list [])
  simp [identify_plant, processResponse, h200, hg, pyTruthy, pyIndex, hpid, hname,
    Bind.bind, Except.bind]

/-- C1 witness: a 200 response whose single prediction is labelled Rose
makes `identify_plant` return Rose. -/
theorem c1_witness :
    (identify_plant "key" [] (fun _ => (⟨200, PyVal.dict [("predictions", PyVal.list [roseEntry])], ""⟩ : Response))).2 =
      Except.ok ⟨PyVal.str "Rose", []⟩ :=
  c1_returns_first_prediction_label "key" [] _ roseEntry [] _ (PyVal.str "Rose") rfl rfl rfl rfl

/-- C1 counterexample: a 200 response whose predictions list contains a Rose
entry (in second position, behind a Tulip entry) makes `identify_plant`
return Tulip, not Rose. -/
theorem c1_counterexample :
    roseSecondResponse.status_code = 200 ∧
    roseEntry ∈ [tulipEntry, roseEntry] ∧
    (pyDictGet roseEntry "plant_identification").bind (fun v => pyDictGet v "plant_name") =
      Option.some (PyVal.str "Rose") ∧
    (identify_plant "key" [] (fun _ => roseSecondResponse)).2 =
      Except.ok ⟨PyVal.str "Tulip", []⟩ ∧
    PyVal.str "Tulip" ≠ PyVal.str "Rose" := by
  refine ⟨rfl, by simp, rfl, rfl, by simp⟩

/-- C2 (amended): a 200 response whose deviation from the expected shape is
one the `.get` defaults absorb -- `predictions` missing from the top-level
dict, a falsy `predictions` value, or a first prediction dict whose
`plant_identification` is absent, or is a dict in which `plant_name` is
absent or null -- makes `identify_plant` return `None` without raising. -/
theorem c2_graceful_on_missing_keys (api_key : String) (bs : List (Fin 256))
    (r : Response) (h200 : r.status_code = 200)
    (hshape :
      (∃ kvs, r.json = PyVal.dict kvs ∧ lookupStr "predictions" kvs = Option.none) ∨
      (∃ v, pyDictGet r.json "predictions" = Option.some v ∧ pyTruthy v = false) ∨
      (∃ pkvs tail,
        pyDictGet r.json "predictions" = Option.some (PyVal.list (PyVal.dict pkvs :: tail)) ∧
        (lookupStr "plant_identification" pkvs = Option.none ∨
         (∃ ikvs, lookupStr "plant_identification" pkvs = Option.some (PyVal.dict ikvs) ∧
           (lookupStr "plant_name" ikvs = Option.none ∨
            lookupStr "plant_name" ikvs = Option.some PyVal.none))))) :
    ∃ msgs, (identify_plant api_key bs (fun _ => r)).2 =
      Except.ok ⟨PyVal.none, msgs⟩ := by
  rcases hshape with ⟨kvs, hj, hl⟩ | ⟨v, hv, ht⟩ | ⟨pkvs, tail, hv, hrest⟩
  · simp [identify_plant, processResponse, h200, hj, pyGetD, hl, pyTruthy,
      Bind.bind, Except.bind]
  · have hg := pyGetD_of_pyDictGet hv (PyVal.list [])
    simp [identify_plant, processResponse, h200, hg, ht, Bind.bind, Except.bind]
  · have hg := pyGetD_of_pyDictGet hv (PyVal.list [])
    rcases hrest with hpl | ⟨ikvs, hpl, hpn⟩
    · simp only [identify_plant, processResponse, h200, reduceIte]
      rw [hg]
      simp [pyTruthy, pyIndex, pyGetD, hpl, lookupStr, Bind.bind, Except.bind]
    · rcases hpn with hpn | hpn <;>
      · simp only [identify_plant, processResponse, h200, reduceIte]
        rw [hg]
        simp [pyTruthy, pyIndex, pyGetD, hpl, hpn, Bind.bind, Except.bind]

/-- C2 witness: a 200 response whose body is an empty JSON object (no
`predictions` key) yields `None` without raising. -/
theorem c2_witness :
    (⟨200, PyVal.dict [], ""⟩ : Response).status_code = 200 ∧
    ∃ msgs, (identify_plant "key" [] (fun _ => (⟨200, PyVal.dict [], ""⟩ : Response))).2 =
      Except.ok ⟨PyVal.none, msgs⟩ :=
  ⟨rfl, c2_graceful_on_missing_keys "key" [] _ rfl (Or.inl ⟨[], rfl, rfl⟩)⟩

/-- C2 counterexample: a 200 response whose first prediction carries a
string under `plant_identification` (a wrong shape) makes `identify_plant`
raise `AttributeError` (calling `.get` on a `str`), not degrade to `None`. -/
theorem c2_counterexample :
    badShapeResponse.status_code = 200 ∧
    (identify_plant "key" [] (fun _ => badShapeResponse)).2 =
      Except.error "AttributeError" :=
  ⟨rfl, rfl⟩

/-- C3 (amended): a 200 response with an empty predictions list makes
`identify_plant` return `None`, and the user-visible message is an
`st.error` (error-styled) message, not an informational one. -/
theorem c3_empty_predictions_error_message (api_key : String) (bs : List (Fin 256))
    (r : Response) (h200 : r.status_code = 200)
    (hpreds : pyDictGet r.json "predictions" = Option.some (PyVal.list [])) :
    (identify_plant api_key bs (fun _ => r)).2 =
      Except.ok ⟨PyVal.none, [Message.error "No predictions found in the response."]⟩ ∧
    isInfoMsg (Message.error "No predictions found in the response.") = false := by
  have hg := pyGetD_of_pyDictGet hpreds (PyVal.list [])
  refine ⟨?_, rfl⟩
  simp [identify_plant, processResponse, h200, hg, pyTruthy, Bind.bind, Except.bind]

/-- C3 witness: the empty-predictions response, concretely. -/
theorem c3_witness :
    emptyPredsResponse.status_code = 200 ∧
    (identify_plant "key" [] (fun _ => emptyPredsResponse)).2 =
      Except.ok ⟨PyVal.none, [Message.error "No predictions found in the response."]⟩ :=
  ⟨rfl, (c3_empty_predictions_error_message "key" [] emptyPredsResponse rfl rfl).1⟩

/-- C3 counterexample: on the empty-predictions response the only message
shown comes from `st.error` -- there is no informational message, contrary
to the claim. -/
theorem c3_counterexample :
    emptyPredsResponse.status_code = 200 ∧
    pyDictGet emptyPredsResponse.json "predictions" = Option.some (PyVal.list []) ∧
    (identify_plant "key" [] (fun _ => emptyPredsResponse)).2 =
      Except.ok ⟨PyVal.none, [Message.error "No predictions found in the response."]⟩ ∧
    ([Message.error "No predictions found in the response."].any isInfoMsg) = false :=
  ⟨rfl, rfl, rfl, rfl⟩

/-- C4: a non-200 response makes `identify_plant` return `None` and show an
`st.error` message that contains the status code and the raw body text. -/
theorem c4_non200_error (api_key : String) (bs : List (Fin 256)) (r : Response)
    (h : r.status_code ≠ 200) :
    (identify_plant api_key bs (fun _ => r)).2 =
      Except.ok ⟨PyVal.none,
        [Message.error ("Error: " ++ toString r.status_code ++ " - " ++ r.text)]⟩ ∧
    (∃ pre post, "Error: " ++ toString r.status_code ++ " - " ++ r.text =
      pre ++ toString r.status_code ++ post) ∧
    (∃ pre post, "Error: " ++ toString r.status_code ++ " - " ++ r.text =
      pre ++ r.text ++ post) := by
  refine ⟨?_, ⟨"Error: ", " - " ++ r.text, ?_⟩,
    ⟨"Error: " ++ toString r.status_code ++ " - ", "", ?_⟩⟩
  · simp [identify_plant, processResponse, h]
  · simp [String.append_assoc]
  · simp

/-- C4 witness: status 404 with body text `not found`. -/
theorem c4_witness :
    (404 ≠ 200) ∧
    ((identify_plant "key" [] (fun _ => (⟨404, PyVal.none, "not found"⟩ : Response))).2 =
      Except.ok ⟨PyVal.none,
        [Message.error ("Error: " ++ toString (404 : Nat) ++ " - " ++ "not found")]⟩ ∧
     (∃ pre post, "Error: " ++ toString (404 : Nat) ++ " - " ++ "not found" =
       pre ++ toString (404 : Nat) ++ post) ∧
     (∃ pre post, "Error: " ++ toString (404 : Nat) ++ " - " ++ "not found" =
       pre ++ "not found" ++ post)) :=
  ⟨by decide, c4_non200_error "key" [] ⟨404, PyVal.none, "not found"⟩ (by decide)⟩

/-- C5: for every image, `identify_plant` issues exactly one request, and it
is the one the spec describes: POST to the fixed URL, bearer Authorization
header, and the instances/image/content JSON body carrying the base64
encoding of the input bytes. -/
theorem c5_single_spec_request (api_key : String) (bs : List (Fin 256))
    (http : HttpRequest → Response) :
    (identify_plant api_key bs http).1 = [specRequest api_key bs] ∧
    (specRequest api_key bs).method = "POST" ∧
    (specRequest api_key bs).url =
      "https://gemini.googleapis.com/v1/models/gemini-1.5-flash-latest:predict" ∧
    (specRequest api_key bs).headers = [("Authorization", "Bearer " ++ api_key)] ∧
    (specRequest api_key bs).body = PyVal.dict [("instances", PyVal.list [PyVal.dict
      [("image", PyVal.dict [("content", PyVal.str (b64encodeStr bs))]),
       ("features", PyVal.dict [("plant_identification", PyVal.dict [])])]])] :=
  ⟨rfl, rfl, rfl, rfl, rfl⟩

/-- C6: the capture holder is last-write-wins: after frames f1 then f2
arrive, the held image is exactly the converted f2, and (when the two
converted frames differ) not the converted f1. -/
theorem c6_last_write_wins {F N : Type} (to_ndarray : F → N)
    (s : VideoProcessorState N) (f1 f2 : F) :
    ((VideoProcessor.recv to_ndarray (VideoProcessor.recv to_ndarray s f1).1 f2).1).captured_image =
      Option.some (to_ndarray f2) ∧
    (to_ndarray f1 ≠ to_ndarray f2 →
      ((VideoProcessor.recv to_ndarray (VideoProcessor.recv to_ndarray s f1).1 f2).1).captured_image ≠
        Option.some (to_ndarray f1)) := by
  refine ⟨rfl, fun hne h => hne ?_⟩
  exact (Option.some.inj h).symm

/-- C6 witness: with identity conversion, frames 1 then 2 leave 2 (and not
1) in the holder. -/
theorem c6_witness :
    ((VideoProcessor.recv id (VideoProcessor.recv id (VideoProcessor.initial Nat) 1).1 2).1).captured_image =
      Option.some 2 ∧
    ((VideoProcessor.recv id (VideoProcessor.recv id (VideoProcessor.initial Nat) 1).1 2).1).captured_image ≠
      Option.some 1 :=
  ⟨(c6_last_write_wins id (VideoProcessor.initial Nat) 1 2).1,
   (c6_last_write_wins id (VideoProcessor.initial Nat) 1 2).2 (by decide)⟩

/-- C7: with no uploaded file and no captured frame (including a processor
whose holder is still empty), neither branch renders the Identify button or
issues a request. -/
theorem c7_no_image_no_request {N : Type} (api_key : String) (clicked : Bool)
    (imencode_jpg : N → List (Fin 256)) (http : HttpRequest → Response) :
    uploadBranch api_key Option.none clicked http =
      ⟨[], false, Option.none, [], Option.none⟩ ∧
    captureBranch api_key Option.none imencode_jpg clicked http =
      ⟨[], false, Option.none, [], Option.none⟩ ∧
    captureBranch api_key (Option.some (VideoProcessor.initial N)) imencode_jpg clicked http =
      ⟨[], false, Option.none, [], Option.none⟩ :=
  ⟨rfl, rfl, rfl⟩

/-- C8: decoding the base64 text the client produces recovers the original
byte sequence exactly. -/
theorem c8_base64_roundtrip (bs : List (Fin 256)) :
    b64decodeStr (b64encodeStr bs) = Option.some bs :=
  b64decode_b64encode bs

/-- C9: `VideoProcessor.recv` passes its input frame through unchanged,
whatever it stores in the holder. -/
theorem c9_recv_returns_input {F N : Type} (to_ndarray : F → N)
    (s : VideoProcessorState N) (frame : F) :
    (VideoProcessor.recv to_ndarray s frame).2 = frame :=
  rfl

/-- C10: when the first prediction carries an empty-string `plant_name`,
`identify_plant` returns the empty string, and the display path -- which
tests truthiness, not non-`None` -- shows the no-identification message. -/
theorem c10_empty_label_displays_no_plant (api_key : String) (bs : List (Fin 256))
    (r : Response) (rest : List PyVal) (h200 : r.status_code = 200)
    (hpreds : pyDictGet r.json "predictions" = Option.some (PyVal.list
      (PyVal.dict [("plant_identification", PyVal.dict [("plant_name", PyVal.str "")])] :: rest))) :
    (identify_plant api_key bs (fun _ => r)).2 = Except.ok ⟨PyVal.str "", []⟩ ∧
    (uploadBranch api_key (Option.some bs) true (fun _ => r)).resultText =
      Option.some "No plant was identified." := by
  have hg := pyGetD_of_pyDictGet hpreds (PyVal.list [])
  have hp : processResponse r = Except.ok ⟨PyVal.str "", []⟩ := by
    simp only [processResponse, h200, reduceIte]
    rw [hg]
    simp [pyTruthy, pyIndex, pyGetD, lookupStr, Bind.bind, Except.bind]
  constructor
  · simpa [identify_plant] using hp
  · simp [uploadBranch, identify_plant, hp, displayResult, pyTruthy]

/-- C10 witness: the concrete empty-label response under the upload branch. -/
theorem c10_witness :
    emptyLabelResponse.status_code = 200 ∧
    ((identify_plant "key" [] (fun _ => emptyLabelResponse)).2 = Except.ok ⟨PyVal.str "", []⟩ ∧
     (uploadBranch "key" (Option.some []) true (fun _ => emptyLabelResponse)).resultText =
       Option.some "No plant was identified.") :=
  ⟨rfl, c10_empty_label_displays_no_plant "key" [] emptyLabelResponse [] rfl rfl⟩

